import Mathlib

/-!
Shallow embedding of `rpc_example/scripts/build_kotlin.py`, the build
orchestration script of the repository: it resolves the host platform,
builds a native library, generates Kotlin bindings, copies the built
dynamic library, fetches two vendor jars, assembles a jar and runs a
scripted test, all by shelling out to external tools.

The embedding models the process state (filesystem entries, printed log
lines, the list of subprocesses actually launched) explicitly, and models
exceptions — including Python's `SystemExit`, which `sys.exit` raises and
which an `except Exception` clause does not catch — with an `Except`
result carrying the state at the point the exception was raised.
-/

namespace BuildKotlin

/-- A filesystem path entry `q` lies at or below path `p`
(used to model `os.path.exists` on directories and `shutil.rmtree`). -/
def underOrEq (p q : String) : Bool :=
  q == p || List.isPrefixOf (p ++ "/").data q.data

/-- `os.path.exists`: some recorded entry is the path itself or lies below it. -/
def pathExists (fs : List String) (p : String) : Bool :=
  fs.any (underOrEq p)

/-- Create a file (or directory) entry; the filesystem is a set of paths. -/
def createFile (p : String) (fs : List String) : List String :=
  if p ∈ fs then fs else fs ++ [p]

/-- `os.remove`: delete a single file entry. -/
def removeFile (p : String) (fs : List String) : List String :=
  fs.filter (fun q => q != p)

/-- `shutil.rmtree`: delete a path and everything below it. -/
def removeTree (p : String) (fs : List String) : List String :=
  fs.filter (fun q => !underOrEq p q)

/-- Process state: filesystem entries, printed lines (in order), and the
argument lists of the subprocesses actually launched (in order). -/
structure St where
  files : List String
  log : List String
  executed : List (List String)
deriving Repr, DecidableEq

/-- `print(msg)`. -/
def logLine (s : St) (msg : String) : St :=
  { s with log := s.log ++ [msg] }

/-- Python exceptions relevant to the script.  `systemExit` is what
`sys.exit(msg)` raises; in Python it derives from `BaseException`, not
`Exception`, so the script's `except Exception` clause does not catch it. -/
inductive Exc where
  | systemExit (msg : String)
  | calledProcessError (msg : String)
  | ioError (msg : String)
deriving Repr, DecidableEq

/-- `subprocess.CompletedProcess`, reduced to the field the script reads. -/
structure CompletedProcess where
  returncode : Int
deriving Repr, DecidableEq

/-- The ambient run configuration: `platform.system()`, the optional
`CLASSPATH` environment variable, the exit code each launched command
reports, and the effect each successfully launched command has on the
filesystem (the external collaborators of spec §6). -/
structure Env where
  system : String
  classpath : Option String
  rc : List String → Int
  eff : List String → List String → List String

-- Constants (lines 10–14 of the script)

def KOTLINC : String := "kotlinc.bat"

/-- `CLASSPATH = os.getenv('CLASSPATH', '<default>')`. -/
def CLASSPATH (env : Option String) : String :=
  env.getD "./rpc_example/kotlin/vendor/jna.jar;./rpc_example/kotlin/vendor/kotlinx-coroutines.jar"

def LIB_NAME : String := "rpc_example"

def TARGET_DIR : String := "./target/release"

def KOTLIN_OUT_DIR : String := "./rpc_example/kotlin"

/-- `run_command(command, print_only)`: print the `[COMMAND]` echo line,
then either return `None` (dry run) or launch the process, record it, apply
its external effect when it succeeds, and return its completion status. -/
def run_command (rc : List String → Int) (eff : List String → List String → List String)
    (command : List String) (print_only : Bool) (s : St) :
    Option CompletedProcess × St :=
  let s1 := logLine s ("[COMMAND] " ++ String.intercalate " " command)
  if print_only then (none, s1)
  else
    let code := rc command
    (some ⟨code⟩,
      { s1 with
        executed := s1.executed ++ [command],
        files := if code = 0 then eff command s1.files else s1.files })

/-- Python's `str.lower()` (character-wise lowercasing). -/
def pyLower (s : String) : String := ⟨s.data.map Char.toLower⟩

/-- `get_lib_extension()`: map the lowercased OS name to a library suffix;
`sys.exit` (modelled as a `systemExit` error) on anything unrecognized. -/
def get_lib_extension (system : String) : Except Exc String :=
  let current_os := pyLower system
  if current_os = "darwin" then .ok "dylib"
  else if current_os = "linux" then .ok "so"
  else if current_os = "windows" then .ok "dll"
  else .error (.systemExit "Unknown OS. Supported OS: mac, linux, windows.")

def cargo_build_command : List String :=
  ["cargo", "build", "-p", "rpc_example", "--release"]

/-- `build_library()`: run cargo; on a non-zero exit code, `sys.exit`. -/
def build_library (env : Env) (s : St) : Except (Exc × St) St :=
  let s1 := logLine s "[INFO] Building library..."
  let r := run_command env.rc env.eff cargo_build_command false s1
  match r.1 with
  | some result =>
      if result.returncode ≠ 0 then .error (.systemExit "Failed to build library", r.2)
      else .ok r.2
  | none => .error (.ioError "AttributeError: NoneType object has no attribute returncode", r.2)

/-- `os.path.join(KOTLIN_OUT_DIR, LIB_NAME)`. -/
def kotlin_lib_path : String := KOTLIN_OUT_DIR ++ "/" ++ LIB_NAME

/-- The pre-delete step of `generate_binding`: if the prior path exists,
`shutil.rmtree` it. -/
def bindings_predelete (s : St) : St :=
  if pathExists s.files kotlin_lib_path then
    { s with files := removeTree kotlin_lib_path s.files }
  else s

def bindgen_command (lib_extension : String) : List String :=
  ["cargo", "run", "-p", "rpc_example", "--features=uniffi/cli", "--bin", "uniffi-bindgen",
   "generate", "--library", TARGET_DIR ++ "/" ++ LIB_NAME ++ "." ++ lib_extension,
   "--language", "kotlin", "--out-dir", KOTLIN_OUT_DIR]

/-- `generate_binding(lib_extension)`: log, pre-delete, run the generator. -/
def generate_binding (env : Env) (lib_extension : String) (s : St) : St :=
  let s1 := logLine s "[INFO] Generating Kotlin binding..."
  let s2 := bindings_predelete s1
  (run_command env.rc env.eff (bindgen_command lib_extension) false s2).2

/-- `copy_cdylib(lib_extension)`: echo a `cp` line, then `shutil.copy`,
which raises if the source is missing. -/
def copy_cdylib (lib_extension : String) (s : St) : Except (Exc × St) St :=
  let s1 := logLine s "[INFO] Copying cdylib to output directory..."
  let src := TARGET_DIR ++ "/" ++ LIB_NAME ++ "." ++ lib_extension
  let dest := KOTLIN_OUT_DIR ++ "/" ++ LIB_NAME ++ "." ++ lib_extension
  let s2 := logLine s1 ("[COMMAND] cp " ++ src ++ " " ++ dest)
  if pathExists s2.files src then .ok { s2 with files := createFile dest s2.files }
  else .error (.ioError ("No such file or directory: " ++ src), s2)

def jar_file : String := KOTLIN_OUT_DIR ++ "/rpc_example.jar"

/-- The pre-delete step of `build_jar`: `os.remove` the jar if it exists. -/
def jar_predelete (s : St) : St :=
  if pathExists s.files jar_file then { s with files := removeFile jar_file s.files }
  else s

def build_jar_command (classpath : Option String) : List String :=
  [KOTLINC, "-Werror", "-d", jar_file,
   KOTLIN_OUT_DIR ++ "/uniffi/rpc_example/rpc_example.kt",
   "-classpath", "\"" ++ CLASSPATH classpath ++ "\""]

/-- `build_jar()`: log, pre-delete the stale jar, then call `run_command`
with `print_only = True` — the compiler command is echoed, never launched. -/
def build_jar (env : Env) (s : St) : St :=
  let s1 := logLine s "[INFO] Building Kotlin JAR..."
  let s2 := jar_predelete s1
  (run_command env.rc env.eff (build_jar_command env.classpath) true s2).2

def test_names : List String := ["blocking"]

def test_command (classpath : Option String) (test_name : String) : List String :=
  [KOTLINC, "-Werror", "-J-ea", "-classpath",
   "\"" ++ CLASSPATH classpath ++ ";" ++ KOTLIN_OUT_DIR ++ "/rpc_example.jar;" ++ KOTLIN_OUT_DIR ++ "\"",
   "-script", "./rpc_example/tests/" ++ test_name ++ "_test.kts"]

/-- `run_tests()`: for each fixed test name, log and call `run_command`
with `print_only = True` — the test command is echoed, never launched. -/
def run_tests (env : Env) (s : St) : St :=
  let s1 := logLine s "[INFO] Executing tests..."
  test_names.foldl (fun st test_name =>
    let st1 := logLine st ("[INFO] Running " ++ test_name ++ "_test.kts ...")
    (run_command env.rc env.eff (test_command env.classpath test_name) true st1).2) s1

def vendor_folder : String := KOTLIN_OUT_DIR ++ "/vendor"

def jna_url : String :=
  "https://repo1.maven.org/maven2/net/java/dev/jna/jna/5.14.0/jna-5.14.0.jar"

def jna_file : String := vendor_folder ++ "/jna.jar"

def kotlinx_coroutines_url : String :=
  "https://repo1.maven.org/maven2/org/jetbrains/kotlinx/kotlinx-coroutines-core-jvm/1.6.4/kotlinx-coroutines-core-jvm-1.6.4.jar"

def kotlinx_coroutines_file : String := vendor_folder ++ "/kotlinx-coroutines.jar"

/-- `dependencies()`: create the vendor folder if absent; for each of the two
fixed jars, log and skip when it exists, otherwise launch curl. -/
def dependencies (env : Env) (s : St) : St :=
  let s1 := if pathExists s.files vendor_folder then s
            else { s with files := createFile vendor_folder s.files }
  let s2 := if pathExists s1.files jna_file then
              logLine s1 ("[INFO] JNA already exists at " ++ jna_file)
            else (run_command env.rc env.eff ["curl", "-L", jna_url, "-o", jna_file] false s1).2
  if pathExists s2.files kotlinx_coroutines_file then
    logLine s2 ("[INFO] kotlinx-coroutines already exists at " ++ kotlinx_coroutines_file)
  else (run_command env.rc env.eff
          ["curl", "-L", kotlinx_coroutines_url, "-o", kotlinx_coroutines_file] false s2).2

/-- `main()`: the orchestrator's fixed linear sequence. -/
def main (env : Env) (s : St) : Except (Exc × St) St :=
  match get_lib_extension env.system with
  | .error e => .error (e, s)
  | .ok lib_extension =>
    match build_library env s with
    | .error es => .error es
    | .ok s1 =>
      let s2 := generate_binding env lib_extension s1
      match copy_cdylib lib_extension s2 with
      | .error es => .error es
      | .ok s3 =>
        let s4 := dependencies env s3
        let s5 := build_jar env s4
        .ok (run_tests env s5)

/-- Modelled from the spec: the filesystem effects of the external
collaborators of §6 that the script itself does not implement — the native
build tool "build a named package in release mode" places the dynamic
library in the release target directory (a linux host, so suffix `so`), the
bindings generator "produce source for a named target language from a
compiled library path" writes the bindings source at the path the Package
Builder later compiles (`build_jar`, line 73 of the script), and the file
downloader "fetch a URL to a local path" writes to its `-o` destination. -/
def externalEffect (command : List String) (fs : List String) : List String :=
  match command with
  | "cargo" :: "build" :: _ => createFile (TARGET_DIR ++ "/" ++ LIB_NAME ++ ".so") fs
  | "cargo" :: "run" :: _ =>
      createFile (KOTLIN_OUT_DIR ++ "/uniffi/rpc_example/rpc_example.kt") fs
  | "curl" :: "-L" :: _ :: "-o" :: dest :: _ => createFile dest fs
  | _ => fs

/-- The path at which the bindings generator writes the Kotlin source. -/
def generated_bindings_file : String := KOTLIN_OUT_DIR ++ "/uniffi/rpc_example/rpc_example.kt"

/-- The destination of the dynamic-library copy. -/
def cdylib_dest : String := KOTLIN_OUT_DIR ++ "/" ++ LIB_NAME ++ ".so"

/-- An empty starting state: nothing on disk, nothing printed, nothing run. -/
def st0 : St := ⟨[], [], []⟩

/-- A linux host, `CLASSPATH` unset, every launched command exiting 0,
external tools behaving as spec §6 describes. -/
def envLinuxOk : Env := ⟨"Linux", none, fun _ => 0, externalEffect⟩

/-- The final state of a full run of `main` under `envLinuxOk` from `st0`. -/
def fullRunFinal : St := ((main envLinuxOk st0).toOption).getD st0

/-- A linux host whose cargo build exits 1 (and whose tools have no
filesystem effect). -/
def envBuildFail : Env := ⟨"Linux", none, fun _ => 1, fun _ fs => fs⟩

/-- A linux host whose launched commands all exit 0 but have no filesystem
effect (the built library never appears on disk). -/
def envNoEffect : Env := ⟨"Linux", none, fun _ => 0, fun _ fs => fs⟩

/-- A state in which the release dynamic library has already been built. -/
def stLib : St := ⟨[TARGET_DIR ++ "/" ++ LIB_NAME ++ ".so"], [], []⟩

/-- The observable outcome of the whole process: its exit code, the message
printed on termination (if any), and whether one of the two `except` clauses
of the `__main__` block converted the escaping exception. -/
structure Outcome where
  exitCode : Int
  message : Option String
  caughtAtTopLevel : Bool
deriving Repr, DecidableEq

/-- The `__main__` block: `try: main()` with
`except subprocess.CalledProcessError` and `except Exception` clauses, each
re-raising via `sys.exit("[ERROR] ...")` (exit code 1, message printed).
A `SystemExit` raised inside `main` by `sys.exit` matches neither clause —
in Python it is a `BaseException`, not an `Exception` — so it propagates
past both handlers and the interpreter exits with code 1 and the raw,
unformatted message. -/
def top_level (env : Env) (s : St) : Outcome :=
  match main env s with
  | .ok _ => ⟨0, none, false⟩
  | .error (.calledProcessError m, _) => ⟨1, some ("[ERROR] Command failed: " ++ m), true⟩
  | .error (.ioError m, _) => ⟨1, some ("[ERROR] An error occurred: " ++ m), true⟩
  | .error (.systemExit m, _) => ⟨1, some m, false⟩

-- Helper lemmas shared by the claim theorems

theorem underOrEq_self (p : String) : underOrEq p p = true := by
  simp [underOrEq]

theorem mem_createFile_self (p : String) (fs : List String) : p ∈ createFile p fs := by
  unfold createFile
  split
  · assumption
  · exact List.mem_append_right _ (List.mem_singleton.mpr rfl)

theorem pathExists_of_mem {p : String} {fs : List String} (h : p ∈ fs) :
    pathExists fs p = true :=
  List.any_eq_true.mpr ⟨p, h, underOrEq_self p⟩

/-- C2: `get_lib_extension` returns `dylib` for darwin, `so` for linux and
`dll` for windows, and for every other (lowercased) identifier terminates
the process via `sys.exit` instead of returning a value. -/
theorem get_lib_extension_spec :
    get_lib_extension "darwin" = .ok "dylib" ∧
    get_lib_extension "linux" = .ok "so" ∧
    get_lib_extension "windows" = .ok "dll" ∧
    ∀ system : String,
      pyLower system ∉ (["darwin", "linux", "windows"] : List String) →
      get_lib_extension system =
        .error (.systemExit "Unknown OS. Supported OS: mac, linux, windows.") := by
  refine ⟨rfl, rfl, rfl, ?_⟩
  intro system h
  simp only [List.mem_cons, List.not_mem_nil, or_false, not_or] at h
  obtain ⟨h1, h2, h3⟩ := h
  simp [get_lib_extension, h1, h2, h3]

/-- Witness for C2: the unrecognized identifier `plan9` terminates. -/
theorem get_lib_extension_spec_witness :
    get_lib_extension "plan9" =
      .error (.systemExit "Unknown OS. Supported OS: mac, linux, windows.") :=
  get_lib_extension_spec.2.2.2 "plan9" (by decide)

/-- C7: `run_command` always first writes the `[COMMAND]` echo line showing
the exact command; with the dry-run flag it returns `None` having launched
nothing, and otherwise it launches the process, records it, and returns a
status object exposing the exit code. -/
theorem run_command_spec (rc : List String → Int)
    (eff : List String → List String → List String)
    (command : List String) (s : St) :
    run_command rc eff command true s =
      (none, { s with log := s.log ++ ["[COMMAND] " ++ String.intercalate " " command] }) ∧
    (run_command rc eff command false s).1 = some ⟨rc command⟩ ∧
    (run_command rc eff command false s).2.log =
      s.log ++ ["[COMMAND] " ++ String.intercalate " " command] ∧
    (run_command rc eff command false s).2.executed = s.executed ++ [command] :=
  ⟨rfl, rfl, rfl, rfl⟩

/-- C8: the classpath string equals the environment override when set and
otherwise the default two-entry classpath into the vendor directory, and it
is the string embedded (quoted) in both the Package Builder's and the Test
Runner's command lists. -/
theorem classpath_resolution (o test_name : String) (env : Option String) :
    CLASSPATH (some o) = o ∧
    CLASSPATH none =
      "./rpc_example/kotlin/vendor/jna.jar;./rpc_example/kotlin/vendor/kotlinx-coroutines.jar" ∧
    CLASSPATH none = vendor_folder ++ "/jna.jar" ++ ";" ++ vendor_folder ++ "/kotlinx-coroutines.jar" ∧
    (build_jar_command env)[6]? = some ("\"" ++ CLASSPATH env ++ "\"") ∧
    (test_command env test_name)[4]? =
      some ("\"" ++ CLASSPATH env ++ ";" ++ KOTLIN_OUT_DIR ++ "/rpc_example.jar;" ++
            KOTLIN_OUT_DIR ++ "\"") :=
  ⟨rfl, rfl, by decide, rfl, rfl⟩

/-- C10: the compiler command name is the constant `kotlinc.bat` — both the
Package Builder's and the Test Runner's command lists begin with it, for
every classpath configuration and every test name; `build_jar_command` and
`test_command` take no platform input at all, so the resolved operating
system (darwin, linux or windows alike) cannot change this head. -/
theorem kotlinc_name_fixed (env : Option String) (test_name : String) :
    KOTLINC = "kotlinc.bat" ∧
    (build_jar_command env).head? = some "kotlinc.bat" ∧
    (test_command env test_name).head? = some "kotlinc.bat" :=
  ⟨rfl, rfl, rfl⟩

/-- C6: when the archive already exists, `build_jar`'s pre-delete removes it
before the compiler command is issued — `build_jar` is literally the
dry-run `run_command` applied to the pre-deleted state — and no file of that
name remains after the pre-delete step, nor after the whole step (the
dry-run compiler call creates nothing). -/
theorem build_jar_removes_stale_archive (env : Env) (s : St)
    (h : jar_file ∈ s.files) :
    jar_file ∉ (jar_predelete (logLine s "[INFO] Building Kotlin JAR...")).files ∧
    build_jar env s =
      (run_command env.rc env.eff (build_jar_command env.classpath) true
        (jar_predelete (logLine s "[INFO] Building Kotlin JAR..."))).2 ∧
    jar_file ∉ (build_jar env s).files := by
  have hex : pathExists s.files jar_file = true := pathExists_of_mem h
  have hpre : jar_predelete (logLine s "[INFO] Building Kotlin JAR...") =
      { logLine s "[INFO] Building Kotlin JAR..." with
        files := removeFile jar_file s.files } := by
    simp [jar_predelete, hex, logLine, removeFile]
  have hnot : jar_file ∉ removeFile jar_file s.files := by
    intro hmem
    have := (List.mem_filter.mp hmem).2
    simp at this
  refine ⟨by rw [hpre]; exact hnot, rfl, ?_⟩
  show jar_file ∉ ((run_command env.rc env.eff (build_jar_command env.classpath) true
    (jar_predelete (logLine s "[INFO] Building Kotlin JAR..."))).2).files
  rw [run_command, if_pos rfl]
  rw [hpre]
  exact hnot

/-- Witness for C6: a state holding only the stale archive. -/
theorem build_jar_removes_stale_archive_witness :
    jar_file ∉ (build_jar envLinuxOk ⟨[jar_file], [], []⟩).files :=
  (build_jar_removes_stale_archive envLinuxOk ⟨[jar_file], [], []⟩ (by decide)).2.2

/-- C5: when both vendor jars are already on disk, `dependencies` only
performs the existence checks and logs the two already-present lines —
the filesystem and the list of launched processes are unchanged, so no
curl download (network request) happens. -/
theorem dependencies_cached_no_network (env : Env) (s : St)
    (h1 : jna_file ∈ s.files) (h2 : kotlinx_coroutines_file ∈ s.files) :
    dependencies env s =
      { s with log := s.log ++
          ["[INFO] JNA already exists at " ++ jna_file,
           "[INFO] kotlinx-coroutines already exists at " ++ kotlinx_coroutines_file] } ∧
    (dependencies env s).files = s.files ∧
    (dependencies env s).executed = s.executed := by
  have hvendor : pathExists s.files vendor_folder = true :=
    List.any_eq_true.mpr ⟨jna_file, h1, by decide⟩
  have hjna : pathExists s.files jna_file = true := pathExists_of_mem h1
  have hkx : pathExists s.files kotlinx_coroutines_file = true := pathExists_of_mem h2
  have hmain : dependencies env s =
      { s with log := s.log ++
          ["[INFO] JNA already exists at " ++ jna_file,
           "[INFO] kotlinx-coroutines already exists at " ++ kotlinx_coroutines_file] } := by
    simp [dependencies, hvendor, hjna, hkx, logLine]
  exact ⟨hmain, by rw [hmain], by rw [hmain]⟩

/-- Witness for C5: a state holding exactly the two vendor jars. -/
theorem dependencies_cached_no_network_witness :
    (dependencies envLinuxOk ⟨[jna_file, kotlinx_coroutines_file], [], []⟩).executed =
      (⟨[jna_file, kotlinx_coroutines_file], [], []⟩ : St).executed :=
  (dependencies_cached_no_network envLinuxOk ⟨[jna_file, kotlinx_coroutines_file], [], []⟩
    (by decide) (by decide)).2.2

/-- C3: whenever the cargo build reports a non-zero exit code, `main` aborts
via `sys.exit` with the state showing exactly the Library Builder's log
lines and its single launched process — no binding generation, copy, fetch,
package or test activity of any kind follows. -/
theorem build_failure_aborts_pipeline (env : Env) (s : St) (ext : String)
    (hos : get_lib_extension env.system = .ok ext)
    (hrc : env.rc cargo_build_command ≠ 0) :
    main env s = .error (.systemExit "Failed to build library",
      { s with
        log := s.log ++ ["[INFO] Building library...",
                         "[COMMAND] cargo build -p rpc_example --release"],
        executed := s.executed ++ [cargo_build_command] }) := by
  have hcmd : "[COMMAND] " ++ String.intercalate " " cargo_build_command =
      "[COMMAND] cargo build -p rpc_example --release" := rfl
  have hbuild : build_library env s =
      .error (.systemExit "Failed to build library",
        { s with
          log := s.log ++ ["[INFO] Building library...",
                           "[COMMAND] cargo build -p rpc_example --release"],
          executed := s.executed ++ [cargo_build_command] }) := by
    unfold build_library run_command
    simp [logLine, hrc, hcmd]
  simp only [main, hos, hbuild]

/-- Witness for C3: a run whose cargo build exits 1 launches only that one
process and terminates. -/
theorem build_failure_aborts_pipeline_witness :
    main envBuildFail st0 = .error (.systemExit "Failed to build library",
      { st0 with
        log := st0.log ++ ["[INFO] Building library...",
                           "[COMMAND] cargo build -p rpc_example --release"],
        executed := st0.executed ++ [cargo_build_command] }) :=
  build_failure_aborts_pipeline envBuildFail st0 "so" rfl (by decide)

/-- C9 counterexample: the `SystemExit` raised by `sys.exit` inside the
Library Builder escapes `main`, matches neither `except` clause of the
`__main__` block (in Python `SystemExit` is not an `Exception`), and the
process terminates with the raw message `Failed to build library` — not the
formatted `[ERROR] ...` message the claim requires for every escaping
exception. -/
theorem system_exit_escapes_top_level :
    main envBuildFail st0 =
      .error (.systemExit "Failed to build library",
        { st0 with
          log := ["[INFO] Building library...",
                  "[COMMAND] cargo build -p rpc_example --release"],
          executed := [cargo_build_command] }) ∧
    top_level envBuildFail st0 =
      ⟨1, some "Failed to build library", false⟩ :=
  ⟨rfl, rfl⟩

/-- The message the process prints for each escaping exception: the two
`except` clauses format `CalledProcessError` and `Exception`; a
`SystemExit` keeps its own message. -/
def handler_message : Exc → String
  | .calledProcessError m => "[ERROR] Command failed: " ++ m
  | .ioError m => "[ERROR] An error occurred: " ++ m
  | .systemExit m => m

/-- Whether the `__main__` `except` clauses catch the exception:
`SystemExit` derives from `BaseException`, not `Exception`, so they do not. -/
def caught_by_handlers : Exc → Bool
  | .calledProcessError _ => true
  | .ioError _ => true
  | .systemExit _ => false

/-- C9 (amended): every exception escaping `main` terminates the process
with exit code 1; `CalledProcessError` and generic exceptions are caught by
the top-level handlers and reported with a formatted `[ERROR]` message,
while `SystemExit` bypasses both handlers and is reported unformatted. -/
theorem top_level_error_handling (env : Env) (s : St) (e : Exc) (st : St)
    (h : main env s = .error (e, st)) :
    (top_level env s).exitCode = 1 ∧
    (top_level env s).message = some (handler_message e) ∧
    (top_level env s).caughtAtTopLevel = caught_by_handlers e := by
  unfold top_level
  rw [h]
  cases e <;> simp [handler_message, caught_by_handlers]

/-- Witness for C9 (amended): a run whose external tools have no effect
makes the artifact copy raise a generic I/O exception, which the top level
catches and converts to exit code 1. -/
theorem top_level_error_handling_witness :
    (top_level envNoEffect st0).exitCode = 1 ∧
    (top_level envNoEffect st0).caughtAtTopLevel = true := by
  have h := top_level_error_handling envNoEffect st0
    (.ioError "No such file or directory: ./target/release/rpc_example.so") _ rfl
  exact ⟨h.1, h.2.2⟩

/-- C4 counterexample: starting from a built library, the first
`generate_binding` run produces the bindings source
`./rpc_example/kotlin/uniffi/rpc_example/rpc_example.kt`; the second run's
pre-delete step (which removes only `./rpc_example/kotlin/rpc_example`)
leaves that file in place — it does not remove what the first run produced
into the bindings output directory. -/
theorem predelete_misses_generated_bindings :
    generated_bindings_file ∉ stLib.files ∧
    generated_bindings_file ∈ (generate_binding envLinuxOk "so" stLib).files ∧
    generated_bindings_file ∈
      (bindings_predelete (logLine (generate_binding envLinuxOk "so" stLib)
          "[INFO] Generating Kotlin binding...")).files :=
  ⟨by decide, by decide, by decide⟩

/-- C4 (amended): the pre-delete step removes exactly the subtree rooted at
`./rpc_example/kotlin/rpc_example`; the generated bindings source is not
under that subtree, so it survives the pre-delete, and a rerun of
`generate_binding` leaves it present only because the generator writes the
same path again (overwrite, not delete-then-regenerate). -/
theorem predelete_scope_and_overwrite (env : Env) (s : St) (ext : String)
    (h : generated_bindings_file ∈ s.files)
    (hrc : env.rc (bindgen_command ext) = 0)
    (heff : env.eff = externalEffect) :
    (bindings_predelete s).files = removeTree kotlin_lib_path s.files ∧
    underOrEq kotlin_lib_path generated_bindings_file = false ∧
    generated_bindings_file ∈ (bindings_predelete s).files ∧
    generated_bindings_file ∈ (generate_binding env ext s).files := by
  have hscope : (bindings_predelete s).files = removeTree kotlin_lib_path s.files := by
    by_cases hp : pathExists s.files kotlin_lib_path
    · simp [bindings_predelete, hp]
    · simp only [bindings_predelete, hp, if_neg, Bool.false_eq_true, if_false]
      refine (List.filter_eq_self.mpr fun a ha => ?_).symm
      have hall : ∀ x ∈ s.files, ¬ underOrEq kotlin_lib_path x = true := by
        simpa [pathExists, List.any_eq_true] using hp
      simp [hall a ha]
  have hkeep : generated_bindings_file ∈ (bindings_predelete s).files := by
    rw [hscope]
    exact List.mem_filter.mpr ⟨h, by decide⟩
  refine ⟨hscope, by decide, hkeep, ?_⟩
  have heffcmd : ∀ fs, externalEffect (bindgen_command ext) fs =
      createFile generated_bindings_file fs := fun fs => rfl
  unfold generate_binding run_command
  simp only [logLine, heff, hrc, if_pos, if_false, Bool.false_eq_true]
  simp [hrc, heffcmd]
  exact mem_createFile_self _ _

/-- Witness for C4 (amended): a state already holding the generated
bindings source. -/
theorem predelete_scope_and_overwrite_witness :
    generated_bindings_file ∈
      (generate_binding envLinuxOk "so" ⟨[generated_bindings_file], [], []⟩).files :=
  (predelete_scope_and_overwrite envLinuxOk ⟨[generated_bindings_file], [], []⟩ "so"
    (by decide) rfl rfl).2.2.2

set_option maxRecDepth 100000 in
/-- C1: the full run on a linux host with an empty starting state and
all-zero exit codes succeeds and produces exactly one dynamic-library copy,
the two vendor files and one bindings source file, with the command echo
lines in the fixed pipeline order — but, because `build_jar` and
`run_tests` pass `print_only=True` to `run_command`, the processes actually
launched are only cargo (twice) and curl (twice): no `kotlinc.bat` process
ever runs, no `rpc_example.jar` is ever created, and no test script is
executed; the archive build and the single test are merely echoed. -/
theorem full_run_dry_mode_outputs :
    (main envLinuxOk st0).toOption = some fullRunFinal ∧
    fullRunFinal.files.count cdylib_dest = 1 ∧
    fullRunFinal.files.count jna_file = 1 ∧
    fullRunFinal.files.count kotlinx_coroutines_file = 1 ∧
    fullRunFinal.files.count generated_bindings_file = 1 ∧
    jar_file ∉ fullRunFinal.files ∧
    fullRunFinal.executed =
      [cargo_build_command, bindgen_command "so",
       ["curl", "-L", jna_url, "-o", jna_file],
       ["curl", "-L", kotlinx_coroutines_url, "-o", kotlinx_coroutines_file]] ∧
    fullRunFinal.log =
      ["[INFO] Building library...",
       "[COMMAND] cargo build -p rpc_example --release",
       "[INFO] Generating Kotlin binding...",
       "[COMMAND] cargo run -p rpc_example --features=uniffi/cli --bin uniffi-bindgen generate --library ./target/release/rpc_example.so --language kotlin --out-dir ./rpc_example/kotlin",
       "[INFO] Copying cdylib to output directory...",
       "[COMMAND] cp ./target/release/rpc_example.so ./rpc_example/kotlin/rpc_example.so",
       "[COMMAND] curl -L https://repo1.maven.org/maven2/net/java/dev/jna/jna/5.14.0/jna-5.14.0.jar -o ./rpc_example/kotlin/vendor/jna.jar",
       "[COMMAND] curl -L https://repo1.maven.org/maven2/org/jetbrains/kotlinx/kotlinx-coroutines-core-jvm/1.6.4/kotlinx-coroutines-core-jvm-1.6.4.jar -o ./rpc_example/kotlin/vendor/kotlinx-coroutines.jar",
       "[INFO] Building Kotlin JAR...",
       "[COMMAND] kotlinc.bat -Werror -d ./rpc_example/kotlin/rpc_example.jar ./rpc_example/kotlin/uniffi/rpc_example/rpc_example.kt -classpath \"./rpc_example/kotlin/vendor/jna.jar;./rpc_example/kotlin/vendor/kotlinx-coroutines.jar\"",
       "[INFO] Executing tests...",
       "[INFO] Running blocking_test.kts ...",
       "[COMMAND] kotlinc.bat -Werror -J-ea -classpath \"./rpc_example/kotlin/vendor/jna.jar;./rpc_example/kotlin/vendor/kotlinx-coroutines.jar;./rpc_example/kotlin/rpc_example.jar;./rpc_example/kotlin\" -script ./rpc_example/tests/blocking_test.kts"] := by
  refine ⟨rfl, by decide, by decide, by decide, by decide, by decide, by decide, by decide⟩

end BuildKotlin
